import Mathlib

/-!
Verification development for the traininfo geofencing / arrival-detection engine.

The definitions below are a shallow embedding of the TypeScript sources:
  * `src/unnamed/part_000` (arrival-threshold module): `getSpeedAdjustment`,
    `getLineAdjustment`, `computeEffectiveArrivalThreshold`;
  * `src/hooks/useLocationTracking.ts` (second, canonical hook version, lines 212-521):
    `getDistanceFromLatLonInMeters`, `resolveModeByDistance`, `updateLocation`;
  * `src/hooks/useNotification.ts`: `sendNotification`.

Real-valued geometry (the haversine formula) is embedded over `ℝ`.  The state
machine of `updateLocation` is embedded over `ℚ` and is parametrised by the
distance function `distFn`, which stands for `getDistanceFromLatLonInMeters`:
every control-flow property of the engine holds for an arbitrary distance
oracle, and concrete witnesses instantiate `distFn` with computable functions.
JavaScript `null`/`undefined`/`NaN` inputs are modelled by `Option` (`none`);
`Number.POSITIVE_INFINITY` in the nearest-station scan is modelled by
`Option ℚ` (`none`), compared through `ltInfty`/`infLe`; `Math.floor` is
`Int.floor`; `Math.round` is
`jsRound x = ⌊x + 1/2⌋` (JavaScript rounds half toward +∞).
-/

namespace TrainInfo

/-! ## Configuration constants (`src/hooks/train-types.ts`, `TRACKING_CONFIG`) -/

namespace TRACKING_CONFIG

def ARRIVAL_THRESHOLD_DEFAULT : ℚ := 300

def CURRENT_STATION_THRESHOLD : ℚ := 150

def STOPPED_STATION_THRESHOLD : ℚ := 75

def DEPARTURE_THRESHOLD : ℚ := 600

def DYNAMIC_FAR_DISTANCE : ℚ := 5000

def DYNAMIC_MID_DISTANCE : ℚ := 2000

def EARTH_RADIUS : ℝ := 6371000

end TRACKING_CONFIG

/-! ## Geodesy (`src/hooks/useLocationTracking.ts`, lines 232-243) -/

/-- JavaScript `Math.atan2 y x` for real arguments (piecewise definition;
the haversine code only ever reaches the `0 < x` and `x = 0 ∧ y = 0` cases). -/
noncomputable def atan2 (y x : ℝ) : ℝ :=
  if 0 < x then Real.arctan (y / x)
  else if x < 0 ∧ 0 ≤ y then Real.arctan (y / x) + Real.pi
  else if x < 0 ∧ y < 0 then Real.arctan (y / x) - Real.pi
  else if x = 0 ∧ 0 < y then Real.pi / 2
  else if x = 0 ∧ y < 0 then -(Real.pi / 2)
  else 0

/-- Haversine distance, `getDistanceFromLatLonInMeters` of
`src/hooks/useLocationTracking.ts` lines 232-243, over `ℝ`. -/
noncomputable def getDistanceFromLatLonInMeters (lat1 lon1 lat2 lon2 : ℝ) : ℝ :=
  let radius := TRACKING_CONFIG.EARTH_RADIUS
  let dLat := (lat2 - lat1) * (Real.pi / 180)
  let dLon := (lon2 - lon1) * (Real.pi / 180)
  let a :=
    Real.sin (dLat / 2) * Real.sin (dLat / 2) +
      Real.cos (lat1 * (Real.pi / 180)) * Real.cos (lat2 * (Real.pi / 180)) *
        Real.sin (dLon / 2) * Real.sin (dLon / 2)
  radius * 2 * atan2 (Real.sqrt a) (Real.sqrt (1 - a))

/-! ## Threshold tuner (`src/unnamed/part_000`, lines 1-66) -/

def MIN_EFFECTIVE_THRESHOLD : ℤ := 220

def MAX_EFFECTIVE_THRESHOLD : ℤ := 1300

/-- JavaScript `Math.round`: round half toward positive infinity. -/
def jsRound (x : ℚ) : ℤ := ⌊x + 1 / 2⌋

/-- `getSpeedAdjustment` (`src/unnamed/part_000` lines 6-15).  `none` stands for
`null`/`undefined`/`NaN` speed. -/
def getSpeedAdjustment (speedMps : Option ℚ) : ℚ :=
  match speedMps with
  | none => 0
  | some v =>
    if v ≤ 0 then 0
    else
      let speedKmh := v * 3.6
      if 80 ≤ speedKmh then 180
      else if 60 ≤ speedKmh then 120
      else if 40 ≤ speedKmh then 60
      else if speedKmh < 15 then -80
      else 0

/-- `getLineAdjustment` (`src/unnamed/part_000` lines 17-27).  `none` stands for
`null`/`undefined`/`NaN` spacing. -/
def getLineAdjustment (averageStationSpacing : Option ℚ) : ℚ :=
  match averageStationSpacing with
  | none => 0
  | some v =>
    if v ≤ 0 then 0
    else if 1800 ≤ v then 120
    else if 1200 ≤ v then 60
    else if v ≤ 450 then -140
    else if v ≤ 700 then -80
    else 0

/-- `computeEffectiveArrivalThreshold` (`src/unnamed/part_000` lines 59-66). -/
def computeEffectiveArrivalThreshold (baseThreshold : ℚ) (speedMps : Option ℚ)
    (averageStationSpacing : Option ℚ) : ℤ :=
  max MIN_EFFECTIVE_THRESHOLD
    (min MAX_EFFECTIVE_THRESHOLD
      (jsRound (baseThreshold + getSpeedAdjustment speedMps + getLineAdjustment averageStationSpacing)))

/-! ## Data model (`src/hooks/train-types.ts`) and engine state
(`src/hooks/useLocationTracking.ts`, `useState`/`useRef` cells of the second,
canonical hook version, lines 245-257) -/

structure Station where
  id : String
  name : String
  latitude : ℚ
  longitude : ℚ
deriving Repr, DecidableEq

structure TrainLine where
  id : String
  name : String
  stations : List Station
  color : String
deriving Repr, DecidableEq

structure AppSettings where
  soundOnlyWithHeadphones : Bool
  vibrationEnabled : Bool
  arrivalThreshold : Option ℚ
deriving Repr, DecidableEq

/-- A position sample as consumed by `updateLocation` (`LocationSample`,
line 219): coordinates plus optional speed in m/s. -/
structure LocationSample where
  latitude : ℚ
  longitude : ℚ
  speedMps : Option ℚ
deriving Repr, DecidableEq

inductive DynamicMode
  | near
  | mid
  | far
deriving Repr, DecidableEq

/-- The live session state of the hook: the `useState` cells (`distance`,
`isArrived`, `currentStationIndex`, `nearestStationDistance`, `isTracking`) and
the `useRef` cells (`trackingMode`, `stationSwitchCandidate`,
`hasDepartedFromCurrentStation`, `hasTriggeredArrivalNotification`,
`lineAverageSpacing`).  `candidateIdx`/`candidateHits` are the two fields of
`stationSwitchCandidate.current`. -/
structure TrackingState where
  isTracking : Bool
  distance : Option ℤ
  isArrived : Bool
  currentStationIndex : ℤ
  nearestStationDistance : Option (Option ℤ)
  trackingMode : DynamicMode
  candidateIdx : ℤ
  candidateHits : ℕ
  hasDeparted : Bool
  hasTriggeredArrivalNotification : Bool
  lineAverageSpacing : Option ℚ
deriving Repr, DecidableEq

/-- JavaScript comparison `a < b` where `b` may be `Number.POSITIVE_INFINITY`,
modelled as `none` (a finite number is always `<` positive infinity). -/
def ltInfty (a : ℚ) : Option ℚ → Prop
  | none => True
  | some b => a < b

instance instDecidableLtInfty (a : ℚ) : (b : Option ℚ) → Decidable (ltInfty a b)
  | none => isTrue trivial
  | some b => inferInstanceAs (Decidable (a < b))

/-- JavaScript comparison `a ≤ b` where `a` may be `Number.POSITIVE_INFINITY`,
modelled as `none` (positive infinity is never `≤` a finite number). -/
def infLe (a : Option ℚ) (b : ℚ) : Prop :=
  match a with
  | none => False
  | some q => q ≤ b

instance instDecidableInfLe : (a : Option ℚ) → (b : ℚ) → Decidable (infLe a b)
  | none, _ => isFalse (fun h => h)
  | some q, b => inferInstanceAs (Decidable (q ≤ b))

/-- Observable effects of one `updateLocation` call: the `onArrive` invocations
(station names, in order) and, when the sampling tier changed during an active
session, the mode passed to `subscribeWithMode`. -/
structure UpdateOutput where
  arrivals : List String
  resubscribed : Option DynamicMode
deriving Repr, DecidableEq

/-- `resolveModeByDistance` (`src/hooks/useLocationTracking.ts` lines 259-263). -/
def resolveModeByDistance (targetDistance : ℚ) : DynamicMode :=
  if TRACKING_CONFIG.DYNAMIC_FAR_DISTANCE < targetDistance then .far
  else if TRACKING_CONFIG.DYNAMIC_MID_DISTANCE < targetDistance then .mid
  else .near

section Engine

variable (distFn : ℚ → ℚ → ℚ → ℚ → ℚ)

/-- The scan loop of `updateLocation` (lines 362-374): fold over the
`(index, station)` pairs in the search range, keeping the best
`(nearestIdx, minDistance)` seen so far; `minDistance` starts at
`Number.POSITIVE_INFINITY`, modelled as `none : Option ℚ`, and a candidate wins
only on a strictly smaller distance. -/
def scanNearest (sample : LocationSample) :
    List (ℕ × Station) → ℤ × Option ℚ → ℤ × Option ℚ
  | [], best => best
  | (index, station) :: rest, best =>
    let stationDistance : ℚ :=
      distFn sample.latitude sample.longitude station.latitude station.longitude
    scanNearest sample rest
      (if ltInfty stationDistance best.2 then ((index : ℤ), some stationDistance) else best)

/-- The nearest-station search of `updateLocation` (lines 349-374): the scan is
restricted to the window `[currentStationIndex - 15, currentStationIndex + 15)`
(clamped to bounds) when the line has more than 30 stations and a
non-negative hint exists, and covers the whole sequence otherwise; the initial
best index is the hint when non-negative and `0` otherwise. -/
def locateNearest (sample : LocationSample) (stations : List Station)
    (currentStationIndex : ℤ) : ℤ × Option ℚ :=
  let bounds : ℤ × ℤ :=
    if 0 ≤ currentStationIndex ∧ 30 < stations.length then
      (max 0 (currentStationIndex - 15), min (stations.length : ℤ) (currentStationIndex + 15))
    else
      (0, (stations.length : ℤ))
  let init : ℤ × Option ℚ :=
    (if 0 ≤ currentStationIndex then currentStationIndex else 0, none)
  scanNearest distFn sample
    ((stations.enum.drop bounds.1.toNat).take (bounds.2 - bounds.1).toNat) init

/-- The unwindowed nearest-station scan: the `else` arm of lines 350-357, a full
scan of the station sequence with the same initial best element. -/
def fullScanNearest (sample : LocationSample) (stations : List Station)
    (currentStationIndex : ℤ) : ℤ × Option ℚ :=
  let init : ℤ × Option ℚ :=
    (if 0 ≤ currentStationIndex then currentStationIndex else 0, none)
  scanNearest distFn sample stations.enum init

end Engine

/-- The distance from the sample to station `j` of the sequence (`none`, the
infinite sentinel, when `j` is out of range); used to state which station is
the true nearest. -/
def stationDistanceAt (distFn : ℚ → ℚ → ℚ → ℚ → ℚ) (sample : LocationSample)
    (stations : List Station) (j : ℕ) : Option ℚ :=
  (stations[j]?).map fun station =>
    distFn sample.latitude sample.longitude station.latitude station.longitude

/-- Test fixture: squared latitude difference, a computable distance function
used to instantiate `distFn` in witnesses. -/
def sqLatDist : ℚ → ℚ → ℚ → ℚ → ℚ :=
  fun lat1 _ lat2 _ => (lat1 - lat2) * (lat1 - lat2)

/-- Test fixture: a 50-station line with station `j` at latitude `j`. -/
def testStations50 : List Station :=
  (List.range 50).map fun (j : ℕ) => ⟨"", "", (j : ℚ), 0⟩

/-- The debounced current-station update of `updateLocation` (lines 378-411),
applied to the scan result `(nearestIdx, minDistance)`:
cold-start adoption when the index is unknown; otherwise, within the
stopped-at-platform threshold, candidate bookkeeping and the guarded switch;
outside it, mark the station as departed and clear the candidate. -/
def stationIndexUpdate (st : TrackingState) (nearestIdx : ℤ)
    (minDistance : Option ℚ) : TrackingState :=
  if st.currentStationIndex < 0 ∧ nearestIdx ≠ st.currentStationIndex then
    { st with
      currentStationIndex := nearestIdx
      candidateIdx := -1
      candidateHits := 0
      hasDeparted := false }
  else if infLe minDistance TRACKING_CONFIG.STOPPED_STATION_THRESHOLD then
    let departed :=
      if nearestIdx = st.currentStationIndex then false else st.hasDeparted
    let candidate : ℤ × ℕ :=
      if st.candidateIdx = nearestIdx then (st.candidateIdx, st.candidateHits + 1)
      else (nearestIdx, 1)
    let isAdjacent :=
      st.currentStationIndex < 0 ∨ (nearestIdx - st.currentStationIndex).natAbs ≤ 1
    if 2 ≤ candidate.2 ∧ nearestIdx ≠ st.currentStationIndex ∧ departed = true ∧ isAdjacent then
      { st with
        currentStationIndex := nearestIdx
        candidateIdx := -1
        candidateHits := 0
        hasDeparted := false }
    else
      { st with
        candidateIdx := candidate.1
        candidateHits := candidate.2
        hasDeparted := departed }
  else
    { st with
      hasDeparted := true
      candidateIdx := -1
      candidateHits := 0 }

/-- `updateLocation` (`src/hooks/useLocationTracking.ts` lines 311-412):
guard on a selected station and line; compute the distance to the target;
re-subscribe when the sampling tier changed during an active session; run the
arrival / hysteresis transition with the tuned threshold, firing `onArrive`
under the one-shot latch; then run the windowed nearest-station scan and the
debounced current-station update. -/
def updateLocation (distFn : ℚ → ℚ → ℚ → ℚ → ℚ) (selectedStation : Option Station)
    (selectedLine : Option TrainLine) (settings : AppSettings) (st : TrackingState)
    (sample : LocationSample) : TrackingState × UpdateOutput :=
  match selectedStation, selectedLine with
  | some target, some line =>
    let dist := distFn sample.latitude sample.longitude target.latitude target.longitude
    let nextMode := resolveModeByDistance dist
    let resubscribed : Option DynamicMode :=
      if nextMode ≠ st.trackingMode ∧ st.isTracking = true then some nextMode else none
    let trackingMode1 :=
      if nextMode ≠ st.trackingMode ∧ st.isTracking = true then nextMode else st.trackingMode
    let baseArrivalThreshold :=
      settings.arrivalThreshold.getD TRACKING_CONFIG.ARRIVAL_THRESHOLD_DEFAULT
    let effectiveArrivalThreshold :=
      computeEffectiveArrivalThreshold baseArrivalThreshold sample.speedMps st.lineAverageSpacing
    let justArrivedThreshold := TRACKING_CONFIG.CURRENT_STATION_THRESHOLD
    let departThreshold :=
      max ((effectiveArrivalThreshold : ℚ) + 150) TRACKING_CONFIG.DEPARTURE_THRESHOLD
    let arrivals : List String :=
      if dist ≤ justArrivedThreshold ∧ st.hasTriggeredArrivalNotification = false then
        [target.name]
      else []
    let isArrived1 :=
      if dist ≤ justArrivedThreshold then true
      else if dist ≤ (effectiveArrivalThreshold : ℚ) then true
      else if departThreshold < dist then false
      else st.isArrived
    let hasTriggered1 :=
      if dist ≤ justArrivedThreshold then true
      else if dist ≤ (effectiveArrivalThreshold : ℚ) then st.hasTriggeredArrivalNotification
      else if departThreshold < dist then false
      else st.hasTriggeredArrivalNotification
    let located := locateNearest distFn sample line.stations st.currentStationIndex
    let st1 : TrackingState :=
      { st with
        distance := some ⌊dist⌋
        trackingMode := trackingMode1
        isArrived := isArrived1
        hasTriggeredArrivalNotification := hasTriggered1
        nearestStationDistance := some (located.2.map fun q => ⌊q⌋) }
    (stationIndexUpdate st1 located.1 located.2, ⟨arrivals, resubscribed⟩)
  | _, _ => (st, ⟨[], none⟩)

/-- Feeding a list of samples through `updateLocation` in order, collecting all
`onArrive` invocations. -/
def runUpdates (distFn : ℚ → ℚ → ℚ → ℚ → ℚ) (selectedStation : Option Station)
    (selectedLine : Option TrainLine) (settings : AppSettings) :
    TrackingState → List LocationSample → TrackingState × List String
  | st, [] => (st, [])
  | st, sample :: rest =>
    let step := updateLocation distFn selectedStation selectedLine settings st sample
    let next := runUpdates distFn selectedStation selectedLine settings step.1 rest
    (next.1, step.2.arrivals ++ next.2)

/-! ## Notification dispatcher (`src/hooks/useNotification.ts`) -/

def NOTIFICATION_COOLDOWN_MS : ℤ := 5000

/-- The dispatcher's own refs (`hasNotified`, `lastNotificationTime`,
`src/hooks/useNotification.ts` lines 15-16). -/
structure NotificationState where
  hasNotified : Bool
  lastNotificationTime : ℤ
deriving Repr, DecidableEq

/-- Outcome of one `sendNotification` call. -/
inductive SendResult
  | skippedLatch
  | skippedCooldown
  | dispatched
  | failed
deriving Repr, DecidableEq

/-- `sendNotification` (`src/hooks/useNotification.ts` lines 39-78) with the
underlying alert channel abstracted into `channelThrows`: reject when the
one-shot latch is set; reject when inside the cooldown window; otherwise set the
latch and the cooldown timestamp and attempt dispatch; when the channel throws,
the `catch` block unsets the latch (lines 75-77) while the timestamp written
just before the `try` keeps its new value. -/
def sendNotification (st : NotificationState) (now : ℤ) (channelThrows : Bool) :
    NotificationState × SendResult :=
  if st.hasNotified = true then (st, .skippedLatch)
  else if now - st.lastNotificationTime < NOTIFICATION_COOLDOWN_MS then (st, .skippedCooldown)
  else if channelThrows = true then
    ({ hasNotified := false, lastNotificationTime := now }, .failed)
  else
    ({ hasNotified := true, lastNotificationTime := now }, .dispatched)

/-- One engine sample followed by the dispatcher consuming the `onArrive`
events it produced (the app wires `onArrive` to `sendNotification`); `now` and
`channelThrows` describe the dispatcher's environment for this sample. -/
def updateLocationWithDispatcher (distFn : ℚ → ℚ → ℚ → ℚ → ℚ)
    (selectedStation : Option Station) (selectedLine : Option TrainLine)
    (settings : AppSettings) (st : TrackingState) (nst : NotificationState)
    (sample : LocationSample) (now : ℤ) (channelThrows : Bool) :
    (TrackingState × NotificationState) × UpdateOutput :=
  let step := updateLocation distFn selectedStation selectedLine settings st sample
  let nst1 := step.2.arrivals.foldl (fun n _ => (sendNotification n now channelThrows).1) nst
  ((step.1, nst1), step.2)

/-- Session state immediately after `startTracking` (lines 440-446): tracking
on, arrival state and one-shot latch cleared, debounce state reset, station
index unknown, sampling mode `near`, cached line spacing as computed. -/
def freshSession (spacing : Option ℚ) : TrackingState where
  isTracking := true
  distance := none
  isArrived := false
  currentStationIndex := -1
  nearestStationDistance := none
  trackingMode := .near
  candidateIdx := -1
  candidateHits := 0
  hasDeparted := false
  hasTriggeredArrivalNotification := false
  lineAverageSpacing := spacing

/-- Distance from a sample to the target station, as computed at the top of
`updateLocation` (lines 314-319). -/
def distanceTo (distFn : ℚ → ℚ → ℚ → ℚ → ℚ) (target : Station) (s : LocationSample) : ℚ :=
  distFn s.latitude s.longitude target.latitude target.longitude

/-- C3: for every base threshold, speed (possibly unknown) and average station
spacing (possibly unknown), `computeEffectiveArrivalThreshold` equals
round(base + speed adjustment + line adjustment) clamped to [220, 1300];
in particular the result always lies in [220, 1300]. -/
theorem computeEffectiveArrivalThreshold_clamped :
    ∀ (base : ℚ) (speedMps averageStationSpacing : Option ℚ),
      computeEffectiveArrivalThreshold base speedMps averageStationSpacing =
          max 220 (min 1300
            (jsRound (base + getSpeedAdjustment speedMps + getLineAdjustment averageStationSpacing))) ∧
        220 ≤ computeEffectiveArrivalThreshold base speedMps averageStationSpacing ∧
        computeEffectiveArrivalThreshold base speedMps averageStationSpacing ≤ 1300 := by
  intro base speedMps averageStationSpacing
  refine ⟨rfl, le_max_left _ _, ?_⟩
  exact max_le (by norm_num [MIN_EFFECTIVE_THRESHOLD])
    (le_trans (min_le_left _ _) (by norm_num [MAX_EFFECTIVE_THRESHOLD]))

/-- C9: the haversine distance is symmetric in its two coordinates, and the
distance from a coordinate to itself is zero. -/
theorem getDistanceFromLatLonInMeters_symm_zero :
    (∀ lat1 lon1 lat2 lon2 : ℝ,
        getDistanceFromLatLonInMeters lat1 lon1 lat2 lon2 =
          getDistanceFromLatLonInMeters lat2 lon2 lat1 lon1) ∧
      (∀ lat lon : ℝ, getDistanceFromLatLonInMeters lat lon lat lon = 0) := by
  constructor
  · intro lat1 lon1 lat2 lon2
    dsimp only [getDistanceFromLatLonInMeters]
    have e1 : Real.sin ((lat1 - lat2) * (Real.pi / 180) / 2)
        = -Real.sin ((lat2 - lat1) * (Real.pi / 180) / 2) := by
      rw [show (lat1 - lat2) * (Real.pi / 180) / 2
          = -((lat2 - lat1) * (Real.pi / 180) / 2) by ring, Real.sin_neg]
    have e2 : Real.sin ((lon1 - lon2) * (Real.pi / 180) / 2)
        = -Real.sin ((lon2 - lon1) * (Real.pi / 180) / 2) := by
      rw [show (lon1 - lon2) * (Real.pi / 180) / 2
          = -((lon2 - lon1) * (Real.pi / 180) / 2) by ring, Real.sin_neg]
    rw [e1, e2]
    ring_nf
  · intro lat lon
    dsimp only [getDistanceFromLatLonInMeters]
    simp only [sub_self, zero_mul, zero_div, Real.sin_zero, mul_zero, zero_add, add_zero,
      Real.sqrt_zero, sub_zero, Real.sqrt_one]
    have h : atan2 0 1 = Real.arctan (0 / 1) := by
      simp only [atan2, if_pos (by norm_num : (0:ℝ) < 1)]
    rw [h]
    simp

/-! ## Frame lemmas: the debounced station update only touches the
current-station / debounce fields. -/

theorem stationIndexUpdate_isArrived (st : TrackingState) (n : ℤ) (m : Option ℚ) :
    (stationIndexUpdate st n m).isArrived = st.isArrived := by
  simp only [stationIndexUpdate]
  split_ifs <;> rfl

theorem stationIndexUpdate_hasTriggered (st : TrackingState) (n : ℤ) (m : Option ℚ) :
    (stationIndexUpdate st n m).hasTriggeredArrivalNotification =
      st.hasTriggeredArrivalNotification := by
  simp only [stationIndexUpdate]
  split_ifs <;> rfl

theorem stationIndexUpdate_lineAverageSpacing (st : TrackingState) (n : ℤ) (m : Option ℚ) :
    (stationIndexUpdate st n m).lineAverageSpacing = st.lineAverageSpacing := by
  simp only [stationIndexUpdate]
  split_ifs <;> rfl

theorem stationIndexUpdate_nearestStationDistance (st : TrackingState) (n : ℤ) (m : Option ℚ) :
    (stationIndexUpdate st n m).nearestStationDistance = st.nearestStationDistance := by
  simp only [stationIndexUpdate]
  split_ifs <;> rfl

/-! ## Projections of one `updateLocation` step -/

theorem updateLocation_fst_hasTriggered (distFn : ℚ → ℚ → ℚ → ℚ → ℚ) (target : Station)
    (line : TrainLine) (settings : AppSettings) (st : TrackingState) (sample : LocationSample) :
    (updateLocation distFn (some target) (some line) settings st sample).1.hasTriggeredArrivalNotification =
      (let dist := distFn sample.latitude sample.longitude target.latitude target.longitude
       let eff := computeEffectiveArrivalThreshold
         (settings.arrivalThreshold.getD TRACKING_CONFIG.ARRIVAL_THRESHOLD_DEFAULT)
         sample.speedMps st.lineAverageSpacing
       if dist ≤ TRACKING_CONFIG.CURRENT_STATION_THRESHOLD then true
       else if dist ≤ (eff : ℚ) then st.hasTriggeredArrivalNotification
       else if max ((eff : ℚ) + 150) TRACKING_CONFIG.DEPARTURE_THRESHOLD < dist then false
       else st.hasTriggeredArrivalNotification) := by
  simp only [updateLocation, stationIndexUpdate_hasTriggered]

theorem updateLocation_fst_isArrived (distFn : ℚ → ℚ → ℚ → ℚ → ℚ) (target : Station)
    (line : TrainLine) (settings : AppSettings) (st : TrackingState) (sample : LocationSample) :
    (updateLocation distFn (some target) (some line) settings st sample).1.isArrived =
      (let dist := distFn sample.latitude sample.longitude target.latitude target.longitude
       let eff := computeEffectiveArrivalThreshold
         (settings.arrivalThreshold.getD TRACKING_CONFIG.ARRIVAL_THRESHOLD_DEFAULT)
         sample.speedMps st.lineAverageSpacing
       if dist ≤ TRACKING_CONFIG.CURRENT_STATION_THRESHOLD then true
       else if dist ≤ (eff : ℚ) then true
       else if max ((eff : ℚ) + 150) TRACKING_CONFIG.DEPARTURE_THRESHOLD < dist then false
       else st.isArrived) := by
  simp only [updateLocation, stationIndexUpdate_isArrived]

theorem updateLocation_snd_arrivals (distFn : ℚ → ℚ → ℚ → ℚ → ℚ) (target : Station)
    (line : TrainLine) (settings : AppSettings) (st : TrackingState) (sample : LocationSample) :
    (updateLocation distFn (some target) (some line) settings st sample).2.arrivals =
      (if distFn sample.latitude sample.longitude target.latitude target.longitude ≤
            TRACKING_CONFIG.CURRENT_STATION_THRESHOLD ∧
          st.hasTriggeredArrivalNotification = false then
        [target.name]
      else []) := by
  simp only [updateLocation]

theorem updateLocation_fst_lineAverageSpacing (distFn : ℚ → ℚ → ℚ → ℚ → ℚ) (target : Station)
    (line : TrainLine) (settings : AppSettings) (st : TrackingState) (sample : LocationSample) :
    (updateLocation distFn (some target) (some line) settings st sample).1.lineAverageSpacing =
      st.lineAverageSpacing := by
  simp only [updateLocation, stationIndexUpdate_lineAverageSpacing]

theorem updateLocation_snd_resubscribed (distFn : ℚ → ℚ → ℚ → ℚ → ℚ) (target : Station)
    (line : TrainLine) (settings : AppSettings) (st : TrackingState) (sample : LocationSample) :
    (updateLocation distFn (some target) (some line) settings st sample).2.resubscribed =
      (let nextMode := resolveModeByDistance
        (distFn sample.latitude sample.longitude target.latitude target.longitude)
       if nextMode ≠ st.trackingMode ∧ st.isTracking = true then some nextMode else none) := by
  simp only [updateLocation]

/-- C7: when the underlying alert channel throws during dispatch,
`sendNotification` rolls back the one-shot latch `hasNotified` so a future
sample can retry, but leaves the cooldown timestamp at the new value, so any
retry within the 5000 ms cooldown window is still rejected. -/
theorem sendNotification_rollback_latch_keeps_cooldown (st : NotificationState) (now : ℤ)
    (hlatch : st.hasNotified = false)
    (hcool : NOTIFICATION_COOLDOWN_MS ≤ now - st.lastNotificationTime) :
    (sendNotification st now true).2 = .failed ∧
    (sendNotification st now true).1.hasNotified = false ∧
    (sendNotification st now true).1.lastNotificationTime = now ∧
    ∀ (now2 : ℤ) (channelThrows : Bool), now2 - now < NOTIFICATION_COOLDOWN_MS →
      sendNotification (sendNotification st now true).1 now2 channelThrows =
        ((sendNotification st now true).1, .skippedCooldown) := by
  have hnc : ¬(now - st.lastNotificationTime < NOTIFICATION_COOLDOWN_MS) := not_lt.mpr hcool
  have h1 : sendNotification st now true =
      ({ hasNotified := false, lastNotificationTime := now }, .failed) := by
    simp [sendNotification, hlatch, hnc]
  refine ⟨by rw [h1], by rw [h1], by rw [h1], ?_⟩
  intro now2 channelThrows h2
  rw [h1]
  simp [sendNotification, h2]

/-- Witness for C7: a failed dispatch at time 5000 from a fresh dispatcher
leaves the latch clear and the timestamp at 5000, and a retry at 9000 is
rejected by the cooldown. -/
theorem sendNotification_rollback_latch_keeps_cooldown_witness :
    (sendNotification ⟨false, 0⟩ 5000 true).2 = .failed ∧
    (sendNotification ⟨false, 0⟩ 5000 true).1.hasNotified = false ∧
    (sendNotification ⟨false, 0⟩ 5000 true).1.lastNotificationTime = 5000 ∧
    sendNotification (sendNotification ⟨false, 0⟩ 5000 true).1 9000 false =
      ((sendNotification ⟨false, 0⟩ 5000 true).1, .skippedCooldown) := by
  have h := sendNotification_rollback_latch_keeps_cooldown ⟨false, 0⟩ 5000 rfl
    (by norm_num [NOTIFICATION_COOLDOWN_MS])
  exact ⟨h.1, h.2.1, h.2.2.1, h.2.2.2 9000 false (by norm_num [NOTIFICATION_COOLDOWN_MS])⟩

/-- C8: the sampling tier computed from the distance to the target is `far`
iff distance > 5000 m, `mid` iff 2000 m < distance ≤ 5000 m, and `near`
otherwise; and during an active session one `updateLocation` step recreates the
position-source subscription exactly when the computed tier differs from the
active tier. -/
theorem sampling_tier_and_resubscription (distFn : ℚ → ℚ → ℚ → ℚ → ℚ) (d : ℚ)
    (target : Station) (line : TrainLine) (settings : AppSettings) (st : TrackingState)
    (sample : LocationSample) (htrack : st.isTracking = true) :
    (resolveModeByDistance d = .far ↔ 5000 < d) ∧
    (resolveModeByDistance d = .mid ↔ 2000 < d ∧ d ≤ 5000) ∧
    (resolveModeByDistance d = .near ↔ d ≤ 2000) ∧
    ((updateLocation distFn (some target) (some line) settings st sample).2.resubscribed ≠ none ↔
      resolveModeByDistance
          (distFn sample.latitude sample.longitude target.latitude target.longitude) ≠
        st.trackingMode) := by
  refine ⟨?_, ?_, ?_, ?_⟩
  · unfold resolveModeByDistance TRACKING_CONFIG.DYNAMIC_FAR_DISTANCE
      TRACKING_CONFIG.DYNAMIC_MID_DISTANCE
    split_ifs with h1 h2 <;> simp_all
  · unfold resolveModeByDistance TRACKING_CONFIG.DYNAMIC_FAR_DISTANCE
      TRACKING_CONFIG.DYNAMIC_MID_DISTANCE
    split_ifs with h1 h2
    · simp only [reduceCtorEq, false_iff, not_and, not_le]
      intro
      linarith
    · simp only [true_iff]
      exact ⟨h2, le_of_not_lt h1⟩
    · simp only [reduceCtorEq, false_iff, not_and, not_le]
      intro h
      exact absurd h h2
  · unfold resolveModeByDistance TRACKING_CONFIG.DYNAMIC_FAR_DISTANCE
      TRACKING_CONFIG.DYNAMIC_MID_DISTANCE
    split_ifs with h1 h2
    · simp only [reduceCtorEq, false_iff, not_le]
      linarith
    · simp only [reduceCtorEq, false_iff, not_le]
      exact h2
    · simp only [true_iff]
      exact le_of_not_lt h2
  · rw [updateLocation_snd_resubscribed]
    by_cases hm : resolveModeByDistance
        (distFn sample.latitude sample.longitude target.latitude target.longitude) =
      st.trackingMode <;> simp [hm, htrack]

/-- Witness for C8: at distance 6000 the tier is `far`; a fresh session
(active, tier `near`) fed a sample at distance 6000 recreates the
subscription. -/
theorem sampling_tier_and_resubscription_witness :
    (resolveModeByDistance 6000 = .far ↔ (5000 : ℚ) < 6000) ∧
    (resolveModeByDistance 6000 = .mid ↔ (2000 : ℚ) < 6000 ∧ (6000 : ℚ) ≤ 5000) ∧
    (resolveModeByDistance 6000 = .near ↔ (6000 : ℚ) ≤ 2000) ∧
    ((updateLocation (fun _ _ _ _ => 6000) (some ⟨"s1", "Target", 0, 0⟩)
        (some ⟨"l1", "Line", [⟨"s1", "Target", 0, 0⟩], "#fff"⟩) ⟨true, true, some 300⟩
        (freshSession none) ⟨0, 0, none⟩).2.resubscribed ≠ none ↔
      resolveModeByDistance ((fun _ _ _ _ => (6000 : ℚ)) 0 0 0 0) ≠
        (freshSession none).trackingMode) :=
  sampling_tier_and_resubscription (fun _ _ _ _ => 6000) 6000 ⟨"s1", "Target", 0, 0⟩
    ⟨"l1", "Line", [⟨"s1", "Target", 0, 0⟩], "#fff"⟩ ⟨true, true, some 300⟩
    (freshSession none) ⟨0, 0, none⟩ rfl

/-- C6: with base threshold 300 m, speed 0 m/s and average station spacing
700 m the effective arrival threshold is 220 m, and a sample at 250 m from the
target lies in the hysteresis band: the arrived flag and the one-shot latch
keep their prior not-arrived values. -/
theorem hysteresis_band_no_state_change (distFn : ℚ → ℚ → ℚ → ℚ → ℚ) (target : Station)
    (line : TrainLine) (settings : AppSettings) (st : TrackingState) (sample : LocationSample)
    (hbase : settings.arrivalThreshold = some 300)
    (hspeed : sample.speedMps = some 0)
    (hspacing : st.lineAverageSpacing = some 700)
    (hdist : distFn sample.latitude sample.longitude target.latitude target.longitude = 250)
    (harr : st.isArrived = false)
    (hlatch : st.hasTriggeredArrivalNotification = false) :
    computeEffectiveArrivalThreshold 300 (some 0) (some 700) = 220 ∧
    (updateLocation distFn (some target) (some line) settings st sample).1.isArrived = false ∧
    (updateLocation distFn (some target) (some line) settings st
        sample).1.hasTriggeredArrivalNotification = false := by
  have heff : computeEffectiveArrivalThreshold 300 (some 0) (some 700) = 220 := by
    norm_num [computeEffectiveArrivalThreshold, jsRound, getSpeedAdjustment, getLineAdjustment,
      MIN_EFFECTIVE_THRESHOLD, MAX_EFFECTIVE_THRESHOLD]
  refine ⟨heff, ?_, ?_⟩
  · rw [updateLocation_fst_isArrived]
    simp only [hbase, hspeed, hspacing, hdist, Option.getD_some, heff]
    norm_num [TRACKING_CONFIG.CURRENT_STATION_THRESHOLD, TRACKING_CONFIG.DEPARTURE_THRESHOLD,
      harr]
  · rw [updateLocation_fst_hasTriggered]
    simp only [hbase, hspeed, hspacing, hdist, Option.getD_some, heff]
    norm_num [TRACKING_CONFIG.CURRENT_STATION_THRESHOLD, TRACKING_CONFIG.DEPARTURE_THRESHOLD,
      hlatch]

/-- Witness for C6: a concrete fresh session on spacing-700 line settings with
a sample held at 250 m from the target. -/
theorem hysteresis_band_no_state_change_witness :
    computeEffectiveArrivalThreshold 300 (some 0) (some 700) = 220 ∧
    (updateLocation (fun _ _ _ _ => 250) (some ⟨"s1", "Target", 0, 0⟩)
        (some ⟨"l1", "Line", [⟨"s1", "Target", 0, 0⟩], "#fff"⟩) ⟨true, true, some 300⟩
        (freshSession (some 700)) ⟨0, 0, some 0⟩).1.isArrived = false ∧
    (updateLocation (fun _ _ _ _ => 250) (some ⟨"s1", "Target", 0, 0⟩)
        (some ⟨"l1", "Line", [⟨"s1", "Target", 0, 0⟩], "#fff"⟩) ⟨true, true, some 300⟩
        (freshSession (some 700)) ⟨0, 0, some 0⟩).1.hasTriggeredArrivalNotification = false :=
  hysteresis_band_no_state_change (fun _ _ _ _ => 250) ⟨"s1", "Target", 0, 0⟩
    ⟨"l1", "Line", [⟨"s1", "Target", 0, 0⟩], "#fff"⟩ ⟨true, true, some 300⟩
    (freshSession (some 700)) ⟨0, 0, some 0⟩ rfl rfl rfl rfl rfl rfl

/-- While the one-shot latch is set, any run of samples that all stay at or
below their departure threshold fires no `onArrive` at all (the latch is only
cleared past the departure threshold, and the dispatcher is only invoked with
the latch clear). -/
theorem runUpdates_silent_of_latched (distFn : ℚ → ℚ → ℚ → ℚ → ℚ) (target : Station)
    (line : TrainLine) (settings : AppSettings) (sp : Option ℚ) :
    ∀ (samples : List LocationSample) (st : TrackingState),
      st.hasTriggeredArrivalNotification = true →
      st.lineAverageSpacing = sp →
      (∀ s ∈ samples, distanceTo distFn target s ≤
        max ((computeEffectiveArrivalThreshold
            (settings.arrivalThreshold.getD TRACKING_CONFIG.ARRIVAL_THRESHOLD_DEFAULT)
            s.speedMps sp : ℚ) + 150) TRACKING_CONFIG.DEPARTURE_THRESHOLD) →
      (runUpdates distFn (some target) (some line) settings st samples).2 = [] := by
  intro samples
  induction samples with
  | nil => intro st _ _ _; rfl
  | cons s rest ih =>
    intro st hlatch hsp hall
    have hbound := hall s (List.mem_cons_self s rest)
    have harr : (updateLocation distFn (some target) (some line) settings st s).2.arrivals
        = [] := by
      rw [updateLocation_snd_arrivals]
      simp [hlatch]
    have hpost : (updateLocation distFn (some target) (some line) settings st
        s).1.hasTriggeredArrivalNotification = true := by
      rw [updateLocation_fst_hasTriggered]
      simp only [hsp]
      split_ifs with h1 h2 h3
      · rfl
      · exact hlatch
      · exact absurd h3 (not_lt.mpr hbound)
      · exact hlatch
    have hpostsp : (updateLocation distFn (some target) (some line) settings st
        s).1.lineAverageSpacing = sp := by
      rw [updateLocation_fst_lineAverageSpacing, hsp]
    simp only [runUpdates, harr, List.nil_append]
    exact ih _ hpost hpostsp (fun s2 hs2 => hall s2 (List.mem_cons_of_mem s hs2))

/-- While the one-shot latch is clear, samples strictly beyond the just-arrived
threshold fire nothing and leave the latch clear. -/
theorem updateLocation_latch_stays_clear (distFn : ℚ → ℚ → ℚ → ℚ → ℚ) (target : Station)
    (line : TrainLine) (settings : AppSettings) (st : TrackingState) (s : LocationSample)
    (hlatch : st.hasTriggeredArrivalNotification = false)
    (hgt : TRACKING_CONFIG.CURRENT_STATION_THRESHOLD < distanceTo distFn target s) :
    (updateLocation distFn (some target) (some line) settings st
        s).1.hasTriggeredArrivalNotification = false ∧
    (updateLocation distFn (some target) (some line) settings st s).2.arrivals = [] := by
  have hne : ¬(distanceTo distFn target s ≤ TRACKING_CONFIG.CURRENT_STATION_THRESHOLD) :=
    not_le.mpr hgt
  constructor
  · rw [updateLocation_fst_hasTriggered]
    simp only [distanceTo] at hne
    simp only [hne, if_false]
    split_ifs <;> first | rfl | exact hlatch
  · rw [updateLocation_snd_arrivals]
    simp only [distanceTo] at hne
    simp [hne]

/-- Monotonically non-increasing sample streams that reach the just-arrived
threshold with the latch clear fire `onArrive` exactly once. -/
theorem runUpdates_one_fire_of_sorted (distFn : ℚ → ℚ → ℚ → ℚ → ℚ) (target : Station)
    (line : TrainLine) (settings : AppSettings) :
    ∀ (samples : List LocationSample) (st : TrackingState),
      st.hasTriggeredArrivalNotification = false →
      (samples.map (distanceTo distFn target)).Sorted (· ≥ ·) →
      (∃ s ∈ samples,
        distanceTo distFn target s ≤ TRACKING_CONFIG.CURRENT_STATION_THRESHOLD) →
      (runUpdates distFn (some target) (some line) settings st samples).2.length = 1 := by
  intro samples
  induction samples with
  | nil => intro st _ _ hcross; exact absurd hcross (by simp)
  | cons s rest ih =>
    intro st hlatch hmono hcross
    rw [List.map_cons, List.sorted_cons] at hmono
    by_cases hds : distanceTo distFn target s ≤ TRACKING_CONFIG.CURRENT_STATION_THRESHOLD
    · have harr : (updateLocation distFn (some target) (some line) settings st s).2.arrivals
          = [target.name] := by
        rw [updateLocation_snd_arrivals]
        simp only [distanceTo] at hds
        simp [hds, hlatch]
      have hpost : (updateLocation distFn (some target) (some line) settings st
          s).1.hasTriggeredArrivalNotification = true := by
        rw [updateLocation_fst_hasTriggered]
        simp only [distanceTo] at hds
        simp [hds]
      have hrest : (runUpdates distFn (some target) (some line) settings
          (updateLocation distFn (some target) (some line) settings st s).1 rest).2 = [] := by
        refine runUpdates_silent_of_latched distFn target line settings
          st.lineAverageSpacing rest _ hpost
          (updateLocation_fst_lineAverageSpacing distFn target line settings st s) ?_
        intro s2 hs2
        have h1 : distanceTo distFn target s2 ≤ distanceTo distFn target s :=
          hmono.1 _ (List.mem_map_of_mem (distanceTo distFn target) hs2)
        have h2 : TRACKING_CONFIG.CURRENT_STATION_THRESHOLD ≤
            TRACKING_CONFIG.DEPARTURE_THRESHOLD := by
          norm_num [TRACKING_CONFIG.CURRENT_STATION_THRESHOLD,
            TRACKING_CONFIG.DEPARTURE_THRESHOLD]
        exact le_trans (le_trans (le_trans h1 hds) h2) (le_max_right _ _)
      simp only [runUpdates, harr, hrest]
      rfl
    · obtain ⟨s1, hs1mem, hs1⟩ := hcross
      have hs1rest : s1 ∈ rest := by
        rcases List.mem_cons.mp hs1mem with h | h
        · exact absurd (h ▸ hs1) hds
        · exact h
      have hstep := updateLocation_latch_stays_clear distFn target line settings st s hlatch
        (not_le.mp hds)
      simp only [runUpdates, hstep.2, List.nil_append]
      exact ih _ hstep.1 hmono.2 ⟨s1, hs1rest, hs1⟩

/-- C1: for a session on a non-empty line with the one-shot latch clear, a
sample stream whose target distances decrease monotonically from 5000 m and
cross below the 150 m just-arrived threshold invokes `onArrive` exactly once,
however many further samples remain below the threshold. -/
theorem updateLocation_one_shot_arrival (distFn : ℚ → ℚ → ℚ → ℚ → ℚ) (target : Station)
    (line : TrainLine) (settings : AppSettings) (st : TrackingState)
    (samples : List LocationSample)
    (_hline : line.stations ≠ [])
    (hlatch : st.hasTriggeredArrivalNotification = false)
    (_hstart : (samples.map (distanceTo distFn target)).head? = some 5000)
    (hmono : (samples.map (distanceTo distFn target)).Sorted (· ≥ ·))
    (hcross : ∃ s ∈ samples,
      distanceTo distFn target s < TRACKING_CONFIG.CURRENT_STATION_THRESHOLD) :
    (runUpdates distFn (some target) (some line) settings st samples).2.length = 1 := by
  obtain ⟨s0, hs0mem, hs0⟩ := hcross
  exact runUpdates_one_fire_of_sorted distFn target line settings samples st hlatch hmono
    ⟨s0, hs0mem, le_of_lt hs0⟩

/-- Witness for C1: distances 5000, 3000, 149, 100 fed to a fresh session fire
`onArrive` exactly once. -/
theorem updateLocation_one_shot_arrival_witness :
    (runUpdates (fun lat1 _ lat2 _ => lat1 - lat2) (some ⟨"s1", "Target", 0, 0⟩)
        (some ⟨"l1", "Line", [⟨"s1", "Target", 0, 0⟩], "#fff"⟩) ⟨true, true, some 300⟩
        (freshSession none)
        [⟨5000, 0, none⟩, ⟨3000, 0, none⟩, ⟨149, 0, none⟩, ⟨100, 0, none⟩]).2.length = 1 :=
  updateLocation_one_shot_arrival (fun lat1 _ lat2 _ => lat1 - lat2) ⟨"s1", "Target", 0, 0⟩
    ⟨"l1", "Line", [⟨"s1", "Target", 0, 0⟩], "#fff"⟩ ⟨true, true, some 300⟩
    (freshSession none)
    [⟨5000, 0, none⟩, ⟨3000, 0, none⟩, ⟨149, 0, none⟩, ⟨100, 0, none⟩]
    (by simp) rfl (by norm_num [distanceTo])
    (by norm_num [List.sorted_cons, distanceTo])
    ⟨⟨149, 0, none⟩, by norm_num [distanceTo, TRACKING_CONFIG.CURRENT_STATION_THRESHOLD]⟩

/-- C10: on the first sample at or below the just-arrived threshold the engine
sets its own one-shot latch unconditionally — for every dispatcher state, clock
value and channel outcome the combined step leaves
`hasTriggeredArrivalNotification = true` — and within the same approach (all
later samples at or below their departure threshold) no later sample invokes
`onArrive` again, even when no notification was delivered. -/
theorem arrival_latch_independent_of_dispatcher (distFn : ℚ → ℚ → ℚ → ℚ → ℚ)
    (target : Station) (line : TrainLine) (settings : AppSettings) (st : TrackingState)
    (sample : LocationSample)
    (hlatch : st.hasTriggeredArrivalNotification = false)
    (hdist : distanceTo distFn target sample ≤ TRACKING_CONFIG.CURRENT_STATION_THRESHOLD) :
    (∀ (nst : NotificationState) (now : ℤ) (channelThrows : Bool),
      (updateLocationWithDispatcher distFn (some target) (some line) settings st nst sample
          now channelThrows).1.1.hasTriggeredArrivalNotification = true) ∧
    (updateLocation distFn (some target) (some line) settings st sample).2.arrivals =
      [target.name] ∧
    ∀ (rest : List LocationSample),
      (∀ s ∈ rest, distanceTo distFn target s ≤
        max ((computeEffectiveArrivalThreshold
            (settings.arrivalThreshold.getD TRACKING_CONFIG.ARRIVAL_THRESHOLD_DEFAULT)
            s.speedMps st.lineAverageSpacing : ℚ) + 150) TRACKING_CONFIG.DEPARTURE_THRESHOLD) →
      (runUpdates distFn (some target) (some line) settings
        (updateLocation distFn (some target) (some line) settings st sample).1 rest).2 = [] := by
  have hpost : (updateLocation distFn (some target) (some line) settings st
      sample).1.hasTriggeredArrivalNotification = true := by
    rw [updateLocation_fst_hasTriggered]
    simp only [distanceTo] at hdist
    simp [hdist]
  refine ⟨?_, ?_, ?_⟩
  · intro nst now channelThrows
    exact hpost
  · rw [updateLocation_snd_arrivals]
    simp only [distanceTo] at hdist
    simp [hdist, hlatch]
  · intro rest hall
    exact runUpdates_silent_of_latched distFn target line settings st.lineAverageSpacing rest _
      hpost (updateLocation_fst_lineAverageSpacing distFn target line settings st sample) hall

/-- Witness for C10: a sample at 100 m latches the engine for every dispatcher
environment, and a follow-up sample at 500 m (inside the departure threshold)
fires nothing further. -/
theorem arrival_latch_independent_of_dispatcher_witness :
    (∀ (nst : NotificationState) (now : ℤ) (channelThrows : Bool),
      (updateLocationWithDispatcher (fun lat1 _ lat2 _ => lat1 - lat2)
          (some ⟨"s1", "Target", 0, 0⟩)
          (some ⟨"l1", "Line", [⟨"s1", "Target", 0, 0⟩], "#fff"⟩) ⟨true, true, some 300⟩
          (freshSession none) nst ⟨100, 0, none⟩ now
          channelThrows).1.1.hasTriggeredArrivalNotification = true) ∧
    (updateLocation (fun lat1 _ lat2 _ => lat1 - lat2) (some ⟨"s1", "Target", 0, 0⟩)
        (some ⟨"l1", "Line", [⟨"s1", "Target", 0, 0⟩], "#fff"⟩) ⟨true, true, some 300⟩
        (freshSession none) ⟨100, 0, none⟩).2.arrivals = ["Target"] ∧
    (runUpdates (fun lat1 _ lat2 _ => lat1 - lat2) (some ⟨"s1", "Target", 0, 0⟩)
        (some ⟨"l1", "Line", [⟨"s1", "Target", 0, 0⟩], "#fff"⟩) ⟨true, true, some 300⟩
        (updateLocation (fun lat1 _ lat2 _ => lat1 - lat2) (some ⟨"s1", "Target", 0, 0⟩)
          (some ⟨"l1", "Line", [⟨"s1", "Target", 0, 0⟩], "#fff"⟩) ⟨true, true, some 300⟩
          (freshSession none) ⟨100, 0, none⟩).1 [⟨500, 0, none⟩]).2 = [] := by
  have h := arrival_latch_independent_of_dispatcher (fun lat1 _ lat2 _ => lat1 - lat2)
    ⟨"s1", "Target", 0, 0⟩ ⟨"l1", "Line", [⟨"s1", "Target", 0, 0⟩], "#fff"⟩
    ⟨true, true, some 300⟩ (freshSession none) ⟨100, 0, none⟩ rfl
    (by norm_num [distanceTo, TRACKING_CONFIG.CURRENT_STATION_THRESHOLD])
  refine ⟨h.1, h.2.1, h.2.2 [⟨500, 0, none⟩] ?_⟩
  intro s hs
  rw [List.mem_singleton] at hs
  subst hs
  exact le_trans (by norm_num [distanceTo, TRACKING_CONFIG.DEPARTURE_THRESHOLD])
    (le_max_right _ _)

/-- C2: while the current station index is a known `N`, a single sample whose
nearest station is `N + 1` never switches the index when the departed flag is
clear; the index switches to `N + 1` exactly when the sample is within the
75 m stopped-at-platform threshold, `N + 1` was already the recorded candidate
with at least one prior qualifying hit (so this is its second consecutive
qualifying sample), and a departure has been observed since the last switch
(`N + 1` is automatically index-adjacent to `N`). -/
theorem updateLocation_debounced_station_switch (distFn : ℚ → ℚ → ℚ → ℚ → ℚ)
    (target : Station) (line : TrainLine) (settings : AppSettings) (st : TrackingState)
    (sample : LocationSample) (N : ℤ) (m : Option ℚ)
    (hN : 0 ≤ N) (hcur : st.currentStationIndex = N)
    (hloc : locateNearest distFn sample line.stations st.currentStationIndex = (N + 1, m)) :
    (st.hasDeparted = false →
      (updateLocation distFn (some target) (some line) settings st
          sample).1.currentStationIndex = N) ∧
    ((updateLocation distFn (some target) (some line) settings st
          sample).1.currentStationIndex = N + 1 ↔
      (infLe m TRACKING_CONFIG.STOPPED_STATION_THRESHOLD ∧
        st.candidateIdx = N + 1 ∧ 1 ≤ st.candidateHits ∧ st.hasDeparted = true)) := by
  have hneq : ¬((N : ℤ) + 1 = st.currentStationIndex) := by rw [hcur]; omega
  have hcold : ¬(st.currentStationIndex < 0 ∧ (N : ℤ) + 1 ≠ st.currentStationIndex) := by
    rw [hcur]
    omega
  have hkey : (updateLocation distFn (some target) (some line) settings st
      sample).1.currentStationIndex = (stationIndexUpdate st (N + 1) m).currentStationIndex := by
    simp only [updateLocation, hloc, stationIndexUpdate]
    split_ifs <;> rfl
  rw [hkey]
  by_cases hsw : infLe m TRACKING_CONFIG.STOPPED_STATION_THRESHOLD ∧
      st.candidateIdx = N + 1 ∧ 1 ≤ st.candidateHits ∧ st.hasDeparted = true
  · obtain ⟨hm, hc, hh, hd⟩ := hsw
    have hY : (stationIndexUpdate st (N + 1) m).currentStationIndex = N + 1 := by
      simp only [stationIndexUpdate]
      rw [if_neg hcold, if_pos hm]
      simp only [if_neg hneq, if_pos hc]
      rw [if_pos ⟨by show 2 ≤ st.candidateHits + 1; omega, hneq, hd,
        Or.inr (by rw [hcur]; omega)⟩]
    refine ⟨?_, ?_⟩
    · intro hdep
      rw [hdep] at hd
      exact absurd hd (by simp)
    · rw [hY]
      simp [hm, hc, hh, hd]
  · have hY : (stationIndexUpdate st (N + 1) m).currentStationIndex = N := by
      simp only [stationIndexUpdate]
      rw [if_neg hcold]
      by_cases hm : infLe m TRACKING_CONFIG.STOPPED_STATION_THRESHOLD
      · rw [if_pos hm]
        simp only [if_neg hneq]
        by_cases hc : st.candidateIdx = N + 1
        · simp only [if_pos hc]
          have hno : ¬(2 ≤ (st.candidateIdx, st.candidateHits + 1).2 ∧
              (N : ℤ) + 1 ≠ st.currentStationIndex ∧ st.hasDeparted = true ∧
              (st.currentStationIndex < 0 ∨
                ((N : ℤ) + 1 - st.currentStationIndex).natAbs ≤ 1)) := by
            rintro ⟨h2a, -, h2c, -⟩
            have h2a2 : 2 ≤ st.candidateHits + 1 := h2a
            exact hsw ⟨hm, hc, by omega, h2c⟩
          rw [if_neg hno]
          exact hcur
        · simp only [if_neg hc]
          have hno : ¬(2 ≤ (((N : ℤ) + 1 : ℤ), 1).2 ∧
              (N : ℤ) + 1 ≠ st.currentStationIndex ∧ st.hasDeparted = true ∧
              (st.currentStationIndex < 0 ∨
                ((N : ℤ) + 1 - st.currentStationIndex).natAbs ≤ 1)) := by
            rintro ⟨h2a, -, -, -⟩
            have h2a2 : (2 : ℕ) ≤ 1 := h2a
            omega
          rw [if_neg hno]
          exact hcur
      · rw [if_neg hm]
        exact hcur
    refine ⟨fun _ => hY, ?_⟩
    rw [hY]
    constructor
    · intro h
      exact absurd h (by omega)
    · intro h
      exact absurd h hsw

/-- Witness for C2: current index 1, candidate 2 with one prior hit, departure
observed, sample on top of station 2 (three-station line, full scan); the index
switches to 2. -/
theorem updateLocation_debounced_station_switch_witness :
    ((⟨true, none, false, 1, none, .near, 2, 1, true, false, none⟩ :
        TrackingState).hasDeparted = false →
      (updateLocation (fun lat1 _ lat2 _ => (lat1 - lat2) * (lat1 - lat2))
          (some ⟨"s2", "B", 1000, 0⟩)
          (some ⟨"l1", "Line", [⟨"s1", "A", 0, 0⟩, ⟨"s2", "B", 1000, 0⟩, ⟨"s3", "C", 2000, 0⟩],
            "#fff"⟩) ⟨true, true, some 300⟩
          ⟨true, none, false, 1, none, .near, 2, 1, true, false, none⟩
          ⟨2000, 0, none⟩).1.currentStationIndex = 1) ∧
    ((updateLocation (fun lat1 _ lat2 _ => (lat1 - lat2) * (lat1 - lat2))
          (some ⟨"s2", "B", 1000, 0⟩)
          (some ⟨"l1", "Line", [⟨"s1", "A", 0, 0⟩, ⟨"s2", "B", 1000, 0⟩, ⟨"s3", "C", 2000, 0⟩],
            "#fff"⟩) ⟨true, true, some 300⟩
          ⟨true, none, false, 1, none, .near, 2, 1, true, false, none⟩
          ⟨2000, 0, none⟩).1.currentStationIndex = 1 + 1 ↔
      (infLe (some 0) TRACKING_CONFIG.STOPPED_STATION_THRESHOLD ∧
        (⟨true, none, false, 1, none, .near, 2, 1, true, false, none⟩ :
          TrackingState).candidateIdx = 1 + 1 ∧
        1 ≤ (⟨true, none, false, 1, none, .near, 2, 1, true, false, none⟩ :
          TrackingState).candidateHits ∧
        (⟨true, none, false, 1, none, .near, 2, 1, true, false, none⟩ :
          TrackingState).hasDeparted = true)) :=
  updateLocation_debounced_station_switch (fun lat1 _ lat2 _ => (lat1 - lat2) * (lat1 - lat2))
    ⟨"s2", "B", 1000, 0⟩
    ⟨"l1", "Line", [⟨"s1", "A", 0, 0⟩, ⟨"s2", "B", 1000, 0⟩, ⟨"s3", "C", 2000, 0⟩], "#fff"⟩
    ⟨true, true, some 300⟩ ⟨true, none, false, 1, none, .near, 2, 1, true, false, none⟩
    ⟨2000, 0, none⟩ 1 (some 0) (by norm_num) rfl (by
      norm_num [locateNearest, scanNearest, ltInfty, List.enum, List.enumFrom])

/-! ## Nearest-station scan: argmin characterisation -/

theorem ltInfty_some (a b : ℚ) : ltInfty a (some b) ↔ a < b := Iff.rfl

theorem ltInfty_none (a : ℚ) : ltInfty a none := trivial

/-- The scan fold leaves its accumulator unchanged when no remaining candidate
is strictly closer. -/
theorem scanNearest_const_of_no_improvement (distFn : ℚ → ℚ → ℚ → ℚ → ℚ)
    (sample : LocationSample) :
    ∀ (l : List (ℕ × Station)) (best : ℤ × Option ℚ),
      (∀ p ∈ l, ¬ ltInfty
        (distFn sample.latitude sample.longitude p.2.latitude p.2.longitude) best.2) →
      scanNearest distFn sample l best = best := by
  intro l
  induction l with
  | nil => intro best _; rfl
  | cons p rest ih =>
    intro best hall
    obtain ⟨i, s⟩ := p
    simp only [scanNearest]
    rw [if_neg (hall (i, s) (List.mem_cons_self _ _))]
    exact ih best fun q hq => hall q (List.mem_cons_of_mem _ hq)

/-- When exactly one scanned index `istar` attains a distance `dstar` strictly
below every other candidate and below the initial best, the scan returns
`(istar, dstar)`: the windowed and full scans are both instances. -/
theorem scanNearest_eq_of_unique_min (distFn : ℚ → ℚ → ℚ → ℚ → ℚ)
    (sample : LocationSample) :
    ∀ (l : List (ℕ × Station)) (best : ℤ × Option ℚ) (istar : ℕ) (dstar : ℚ),
      (∃ p ∈ l, p.1 = istar) →
      (∀ p ∈ l,
        (p.1 = istar →
          distFn sample.latitude sample.longitude p.2.latitude p.2.longitude = dstar) ∧
        (p.1 ≠ istar →
          dstar < distFn sample.latitude sample.longitude p.2.latitude p.2.longitude)) →
      ltInfty dstar best.2 →
      scanNearest distFn sample l best = ((istar : ℤ), some dstar) := by
  intro l
  induction l with
  | nil =>
    intro best istar dstar hmem _ _
    obtain ⟨p, hp, -⟩ := hmem
    exact absurd hp (List.not_mem_nil p)
  | cons p rest ih =>
    intro best istar dstar hmem hall hinit
    obtain ⟨i, s⟩ := p
    have hhead := hall (i, s) (List.mem_cons_self _ _)
    simp only [scanNearest]
    by_cases hp : i = istar
    · have hDp : distFn sample.latitude sample.longitude s.latitude s.longitude = dstar :=
        hhead.1 hp
      rw [if_pos (by rw [hDp]; exact hinit), hDp, hp]
      exact scanNearest_const_of_no_improvement distFn sample rest _ (by
        intro q hq
        have hq2 := hall q (List.mem_cons_of_mem _ hq)
        by_cases hqi : q.1 = istar
        · rw [ltInfty_some, hq2.1 hqi]
          exact lt_irrefl dstar
        · rw [ltInfty_some]
          exact not_lt.mpr (le_of_lt (hq2.2 hqi)))
    · have hlt : dstar <
          distFn sample.latitude sample.longitude s.latitude s.longitude := hhead.2 hp
      have hmem2 : ∃ q ∈ rest, q.1 = istar := by
        obtain ⟨q, hq, hqi⟩ := hmem
        rcases List.mem_cons.mp hq with h | h
        · rw [h] at hqi
          exact absurd hqi hp
        · exact ⟨q, h, hqi⟩
      refine ih _ istar dstar hmem2
        (fun q hq => hall q (List.mem_cons_of_mem _ hq)) ?_
      by_cases hc : ltInfty
          (distFn sample.latitude sample.longitude s.latitude s.longitude) best.2
      · rw [if_pos hc]
        exact hlt
      · rw [if_neg hc]
        exact hinit

/-- On a 50-station line with hint 25, the windowed search scans exactly the
enumerated slice `[10, 40)` starting from best index 25. -/
theorem locateNearest_window_50_25 (distFn : ℚ → ℚ → ℚ → ℚ → ℚ) (sample : LocationSample)
    (stations : List Station) (hlen : stations.length = 50) :
    locateNearest distFn sample stations 25 =
      scanNearest distFn sample ((stations.enum.drop 10).take 30) (25, none) := by
  simp only [locateNearest, hlen]
  norm_num [show Int.toNat 30 = 30 from rfl, show Int.toNat 10 = 10 from rfl]

/-- The unwindowed scan with hint 25 starts from best index 25 over the whole
enumeration. -/
theorem fullScanNearest_hint_25 (distFn : ℚ → ℚ → ℚ → ℚ → ℚ) (sample : LocationSample)
    (stations : List Station) :
    fullScanNearest distFn sample stations 25 =
      scanNearest distFn sample stations.enum (25, none) := by
  simp only [fullScanNearest]
  norm_num

/-- Membership in the `[10, 40)` slice of the enumeration. -/
theorem mem_slice_10_40_iff (stations : List Station) (p : ℕ × Station) :
    p ∈ (stations.enum.drop 10).take 30 ↔
      10 ≤ p.1 ∧ p.1 < 40 ∧ stations[p.1]? = some p.2 := by
  constructor
  · intro hp
    obtain ⟨k, hk⟩ := List.mem_iff_getElem?.mp hp
    rw [List.getElem?_take] at hk
    by_cases hk30 : k < 30
    · rw [if_pos hk30, List.getElem?_drop, List.getElem?_enum] at hk
      cases hs : stations[10 + k]? with
      | none => rw [hs] at hk; exact absurd hk (by simp)
      | some s =>
        rw [hs] at hk
        simp only [Option.map_some', Option.some.injEq] at hk
        subst hk
        exact ⟨by omega, by omega, hs⟩
    · rw [if_neg hk30] at hk
      exact absurd hk (by simp)
  · rintro ⟨hlow, hhigh, hs⟩
    have hidx : ((stations.enum.drop 10).take 30)[p.1 - 10]? = some p := by
      rw [List.getElem?_take, if_pos (by omega : p.1 - 10 < 30), List.getElem?_drop,
        show 10 + (p.1 - 10) = p.1 by omega, List.getElem?_enum, hs]
      rfl
    exact List.getElem?_mem hidx

theorem testStations50_length : testStations50.length = 50 := by
  rw [testStations50, List.length_map, List.length_range]

theorem testStations50_getElem (j : ℕ) (hj : j < 50) :
    testStations50[j]? = some ⟨"", "", (j : ℚ), 0⟩ := by
  rw [testStations50, List.getElem?_map, List.getElem?_range hj]
  rfl

/-- C4 (amended): for a 50-station line and hint 25, the windowed search agrees
with the unwindowed full scan whenever the unique true nearest station index
lies inside the actually scanned window `[hint − 15, hint + 15)`, i.e.
`10 ≤ istar < 40`; both return that index. -/
theorem windowed_search_agrees_within_window (distFn : ℚ → ℚ → ℚ → ℚ → ℚ)
    (sample : LocationSample) (stations : List Station) (istar : ℕ) (dstar : ℚ)
    (hlen : stations.length = 50)
    (histar : stationDistanceAt distFn sample stations istar = some dstar)
    (huniq : ∀ j, j < stations.length → j ≠ istar →
      ∀ q, stationDistanceAt distFn sample stations j = some q → dstar < q)
    (hlow : 10 ≤ istar) (hhigh : istar < 40) :
    locateNearest distFn sample stations 25 = fullScanNearest distFn sample stations 25 ∧
    (fullScanNearest distFn sample stations 25).1 = (istar : ℤ) := by
  obtain ⟨s, hs, hDs⟩ := Option.map_eq_some'.mp histar
  have hallfull : ∀ p ∈ stations.enum,
      (p.1 = istar →
        distFn sample.latitude sample.longitude p.2.latitude p.2.longitude = dstar) ∧
      (p.1 ≠ istar →
        dstar < distFn sample.latitude sample.longitude p.2.latitude p.2.longitude) := by
    intro p hp
    have hpe : stations[p.1]? = some p.2 := List.mem_enum_iff_getElem?.mp hp
    have hplen : p.1 < stations.length := by
      by_contra hge
      rw [List.getElem?_eq_none (by omega)] at hpe
      exact absurd hpe (by simp)
    constructor
    · intro hpi
      rw [hpi, hs] at hpe
      rw [← Option.some.inj hpe]
      exact hDs
    · intro hpi
      refine huniq p.1 hplen hpi _ ?_
      simp only [stationDistanceAt, hpe, Option.map_some']
  have hfull : fullScanNearest distFn sample stations 25 = ((istar : ℤ), some dstar) := by
    rw [fullScanNearest_hint_25]
    exact scanNearest_eq_of_unique_min distFn sample _ _ istar dstar
      ⟨(istar, s), List.mk_mem_enum_iff_getElem?.mpr hs, rfl⟩ hallfull (ltInfty_none dstar)
  have hwin : locateNearest distFn sample stations 25 = ((istar : ℤ), some dstar) := by
    rw [locateNearest_window_50_25 distFn sample stations hlen]
    refine scanNearest_eq_of_unique_min distFn sample _ _ istar dstar ?_ ?_ (ltInfty_none dstar)
    · exact ⟨(istar, s), (mem_slice_10_40_iff stations (istar, s)).mpr ⟨hlow, hhigh, hs⟩, rfl⟩
    · exact fun p hp => hallfull p (List.mem_of_mem_drop (List.mem_of_mem_take hp))
  exact ⟨by rw [hfull, hwin], by rw [hfull]⟩

/-- Witness for C4 (amended): on the fixture line with the sample on station
39 (inside the window), windowed and full scans agree on index 39. -/
theorem windowed_search_agrees_within_window_witness :
    locateNearest sqLatDist ⟨39, 0, none⟩ testStations50 25 =
      fullScanNearest sqLatDist ⟨39, 0, none⟩ testStations50 25 ∧
    (fullScanNearest sqLatDist ⟨39, 0, none⟩ testStations50 25).1 = ((39 : ℕ) : ℤ) :=
  windowed_search_agrees_within_window sqLatDist ⟨39, 0, none⟩ testStations50 39 0
    testStations50_length
    (by
      simp only [stationDistanceAt, testStations50_getElem 39 (by norm_num), Option.map_some']
      norm_num [sqLatDist])
    (by
      intro j hj hne q hq
      rw [testStations50_length] at hj
      simp only [stationDistanceAt, testStations50_getElem j hj, Option.map_some'] at hq
      rw [← Option.some.inj hq]
      have hne2 : (39 : ℚ) - (j : ℚ) ≠ 0 := by
        intro h0
        have hj39 : ((j : ℕ) : ℚ) = ((39 : ℕ) : ℚ) := by push_cast; linarith
        exact hne (Nat.cast_inj.mp hj39)
      simpa [sqLatDist] using mul_self_pos.mpr hne2)
    (by norm_num) (by norm_num)

/-- Counterexample for C4: on the fixture line with the sample on station 40 —
which is within ±15 of the hint 25 — the full scan returns 40 but the windowed
scan, whose upper bound `hint + 15` is exclusive, returns 39. -/
theorem windowed_search_mismatch_at_upper_edge :
    ((40 : ℤ) - 25).natAbs ≤ 15 ∧
    fullScanNearest sqLatDist ⟨40, 0, none⟩ testStations50 25 = (40, some 0) ∧
    (∀ j, j < 50 → j ≠ 40 → ∀ q,
      stationDistanceAt sqLatDist ⟨40, 0, none⟩ testStations50 j = some q → 0 < q) ∧
    locateNearest sqLatDist ⟨40, 0, none⟩ testStations50 25 = (39, some 1) ∧
    (locateNearest sqLatDist ⟨40, 0, none⟩ testStations50 25).1 ≠
      (fullScanNearest sqLatDist ⟨40, 0, none⟩ testStations50 25).1 := by
  have hval : ∀ p : ℕ × Station, p.1 < 50 → testStations50[p.1]? = some p.2 →
      p.2 = ⟨"", "", (p.1 : ℚ), 0⟩ := by
    intro p hplen hpe
    rw [testStations50_getElem p.1 hplen] at hpe
    exact (Option.some.inj hpe).symm
  have hfull : fullScanNearest sqLatDist ⟨40, 0, none⟩ testStations50 25 = (40, some 0) := by
    rw [fullScanNearest_hint_25]
    refine scanNearest_eq_of_unique_min sqLatDist ⟨40, 0, none⟩ _ _ 40 0 ?_ ?_ (ltInfty_none 0)
    · exact ⟨(40, ⟨"", "", (40 : ℕ) , 0⟩), List.mk_mem_enum_iff_getElem?.mpr
        (testStations50_getElem 40 (by norm_num)), rfl⟩
    · intro p hp
      have hpe : testStations50[p.1]? = some p.2 := List.mem_enum_iff_getElem?.mp hp
      have hplen : p.1 < 50 := by
        by_contra hge
        rw [List.getElem?_eq_none (by rw [testStations50_length]; omega)] at hpe
        exact absurd hpe (by simp)
      rw [hval p hplen hpe]
      constructor
      · intro hpi
        rw [hpi]
        norm_num [sqLatDist]
      · intro hpi
        have hne2 : (40 : ℚ) - (p.1 : ℚ) ≠ 0 := by
          intro h0
          have h40 : ((p.1 : ℕ) : ℚ) = ((40 : ℕ) : ℚ) := by push_cast; linarith
          exact hpi (Nat.cast_inj.mp h40)
        simpa [sqLatDist] using mul_self_pos.mpr hne2
  have hwin : locateNearest sqLatDist ⟨40, 0, none⟩ testStations50 25 = (39, some 1) := by
    rw [locateNearest_window_50_25 sqLatDist ⟨40, 0, none⟩ testStations50 testStations50_length]
    refine scanNearest_eq_of_unique_min sqLatDist ⟨40, 0, none⟩ _ _ 39 1 ?_ ?_ (ltInfty_none 1)
    · exact ⟨(39, ⟨"", "", (39 : ℕ), 0⟩), (mem_slice_10_40_iff testStations50
        (39, ⟨"", "", (39 : ℕ), 0⟩)).mpr ⟨by norm_num, by norm_num,
          testStations50_getElem 39 (by norm_num)⟩, rfl⟩
    · intro p hp
      have hps := (mem_slice_10_40_iff testStations50 p).mp hp
      have hplen : p.1 < 50 := by omega
      rw [hval p hplen hps.2.2]
      constructor
      · intro hpi
        rw [hpi]
        norm_num [sqLatDist]
      · intro hpi
        have hle38 : p.1 ≤ 38 := by omega
        have hcast : (p.1 : ℚ) ≤ 38 := by exact_mod_cast hle38
        show (1 : ℚ) < (40 - p.1) * (40 - p.1)
        nlinarith
  refine ⟨by decide, hfull, ?_, hwin, by rw [hwin, hfull]; decide⟩
  intro j hj hne q hq
  simp only [stationDistanceAt, testStations50_getElem j hj, Option.map_some'] at hq
  rw [← Option.some.inj hq]
  have hne2 : (40 : ℚ) - (j : ℚ) ≠ 0 := by
    intro h0
    have h40 : ((j : ℕ) : ℚ) = ((40 : ℕ) : ℚ) := by push_cast; linarith
    exact hne (Nat.cast_inj.mp h40)
  simpa [sqLatDist] using mul_self_pos.mpr hne2

/-- C5 (amended): running the nearest-station scan against a zero-station line
does not fail with an error: the scan loop never runs, the minimum distance
keeps its positive-infinity sentinel, and `updateLocation` completes, recording
the infinite nearest-station distance and — on a cold start — adopting station
index 0, otherwise leaving the index unchanged. -/
theorem locate_on_empty_line_completes (distFn : ℚ → ℚ → ℚ → ℚ → ℚ) (target : Station)
    (line : TrainLine) (settings : AppSettings) (st : TrackingState) (sample : LocationSample)
    (hempty : line.stations = []) :
    locateNearest distFn sample line.stations st.currentStationIndex =
      (if 0 ≤ st.currentStationIndex then st.currentStationIndex else 0, none) ∧
    (updateLocation distFn (some target) (some line) settings st
        sample).1.nearestStationDistance = some none ∧
    (updateLocation distFn (some target) (some line) settings st
        sample).1.currentStationIndex =
      (if st.currentStationIndex < 0 then 0 else st.currentStationIndex) := by
  have hloc : locateNearest distFn sample line.stations st.currentStationIndex =
      (if 0 ≤ st.currentStationIndex then st.currentStationIndex else 0, none) := by
    rw [hempty]
    simp [locateNearest, scanNearest]
  refine ⟨hloc, ?_, ?_⟩
  · simp only [updateLocation, stationIndexUpdate_nearestStationDistance, hloc]
    rfl
  · simp only [updateLocation, hloc, stationIndexUpdate]
    by_cases hneg : st.currentStationIndex < 0
    · rw [if_neg (show ¬(0 ≤ st.currentStationIndex) from by omega)]
      rw [if_pos ⟨hneg, show (0 : ℤ) ≠ st.currentStationIndex from by omega⟩]
      rw [if_pos hneg]
    · rw [if_pos (show 0 ≤ st.currentStationIndex from by omega)]
      rw [if_neg (show ¬(st.currentStationIndex < 0 ∧
        st.currentStationIndex ≠ st.currentStationIndex) from by omega)]
      rw [if_neg (show ¬ infLe none TRACKING_CONFIG.STOPPED_STATION_THRESHOLD from
        fun h => h)]
      rw [if_neg hneg]

/-- Witness for C5 (amended): a concrete session with a known current index 3
on a zero-station line completes with the infinite sentinel and an unchanged
index. -/
theorem locate_on_empty_line_completes_witness :
    locateNearest (fun _ _ _ _ => 1000) ⟨0, 0, none⟩
      (TrainLine.stations ⟨"l0", "Empty", [], "#000"⟩)
      (TrackingState.currentStationIndex
        ⟨true, none, false, 3, none, .near, -1, 0, false, false, none⟩) =
      (if 0 ≤ (TrackingState.currentStationIndex
          ⟨true, none, false, 3, none, .near, -1, 0, false, false, none⟩) then
        TrackingState.currentStationIndex
          ⟨true, none, false, 3, none, .near, -1, 0, false, false, none⟩
      else 0, none) ∧
    (updateLocation (fun _ _ _ _ => 1000) (some ⟨"s1", "Target", 0, 0⟩)
        (some ⟨"l0", "Empty", [], "#000"⟩) ⟨true, true, some 300⟩
        ⟨true, none, false, 3, none, .near, -1, 0, false, false, none⟩
        ⟨0, 0, none⟩).1.nearestStationDistance = some none ∧
    (updateLocation (fun _ _ _ _ => 1000) (some ⟨"s1", "Target", 0, 0⟩)
        (some ⟨"l0", "Empty", [], "#000"⟩) ⟨true, true, some 300⟩
        ⟨true, none, false, 3, none, .near, -1, 0, false, false, none⟩
        ⟨0, 0, none⟩).1.currentStationIndex =
      (if (TrackingState.currentStationIndex
          ⟨true, none, false, 3, none, .near, -1, 0, false, false, none⟩) < 0 then 0
      else TrackingState.currentStationIndex
        ⟨true, none, false, 3, none, .near, -1, 0, false, false, none⟩) :=
  locate_on_empty_line_completes (fun _ _ _ _ => 1000) ⟨"s1", "Target", 0, 0⟩
    ⟨"l0", "Empty", [], "#000"⟩ ⟨true, true, some 300⟩
    ⟨true, none, false, 3, none, .near, -1, 0, false, false, none⟩ ⟨0, 0, none⟩ rfl

/-- Counterexample for C5: a zero-station line does not make the locator fail
with `InvalidLine` — there is no such error path — instead `updateLocation`
completes, cold-starting the current index to 0 and storing the infinite
nearest-distance sentinel. -/
theorem empty_line_scan_completes :
    (updateLocation (fun _ _ _ _ => 1000) (some ⟨"s1", "Target", 0, 0⟩)
        (some ⟨"l0", "Empty", [], "#000"⟩) ⟨true, true, some 300⟩ (freshSession none)
        ⟨0, 0, none⟩).1.currentStationIndex = 0 ∧
    (updateLocation (fun _ _ _ _ => 1000) (some ⟨"s1", "Target", 0, 0⟩)
        (some ⟨"l0", "Empty", [], "#000"⟩) ⟨true, true, some 300⟩ (freshSession none)
        ⟨0, 0, none⟩).1.nearestStationDistance = some none := by
  have hloc : locateNearest (fun _ _ _ _ => (1000 : ℚ)) ⟨0, 0, none⟩
      (TrainLine.stations ⟨"l0", "Empty", [], "#000"⟩)
      (freshSession none).currentStationIndex = (0, none) := by
    simp [locateNearest, scanNearest, freshSession]
  constructor
  · simp only [updateLocation, hloc, stationIndexUpdate]
    norm_num [freshSession]
  · simp only [updateLocation, stationIndexUpdate_nearestStationDistance, hloc]
    rfl

end TrainInfo
